import Mathlib

/-!
Verification of the marble-maze generator (src/marble_maze_gen_1.py).

The script drives a geometry/physics host (Blender) through a shared,
process-wide document: a set of named mesh objects plus an ambient
selection and an active-object pointer.  We embed that document as the
`Scene` structure below and translate each Python function of the
repository into a Lean function on `Scene`.

Mesh geometry is tracked at the granularity the repository's own code
observes: the primitive kind, the polygon count (the cap-opening loop of
`create_support` selects faces by index 30/33), which caps have been
opened, the radius multipliers of the top and bottom rims, and a log of
the boolean (CSG) operations applied to the mesh.  Host primitives
(cylinder of radius 1 and depth 2 with 34 faces, plane, circle, UV
sphere) and the host's renaming discipline (a duplicate name gets a
".001"-style suffix) are modelled from the host's documented behaviour.
-/

namespace MarbleMaze

/-- A 3-component rational vector (locations, offsets, scales). -/
structure Vec3 where
  x : ℚ
  y : ℚ
  z : ℚ
deriving DecidableEq, Repr

/-- The primitive kinds the script creates. -/
inductive MeshKind
  | cylinder
  | plane
  | circle
  | sphere
deriving DecidableEq, Repr

/-- The two boolean modifier operations used by the script. -/
inductive BoolOp
  | UNION
  | DIFFERENCE
deriving DecidableEq, Repr

/-- One entry of a mesh's CSG log: the operation together with a snapshot
of the secondary operand's name, world location and cap openness at the
time the modifier was applied. -/
structure CSGEntry where
  op : BoolOp
  otherName : String
  otherLoc : Vec3
  otherTopOpen : Bool
  otherBottomOpen : Bool
deriving DecidableEq, Repr

/-- Abstract mesh state.  `faceCount` is the number of polygons (the
script selects cap faces by index into this range); `topOpen` and
`bottomOpen` record whether the cap-opening step has perforated the
respective cap; `topRadiusMul`/`bottomRadiusMul` are the local radius
multipliers of the two rims (1 for an unmodified primitive);
`capInset` is the rim thickness used when the caps were opened;
`bisected` records the track builder's plane cut; `csg` is the log of
boolean operations applied to this mesh. -/
structure Mesh where
  kind : MeshKind
  faceCount : Nat
  topOpen : Bool := false
  bottomOpen : Bool := false
  topRadiusMul : ℚ := 1
  bottomRadiusMul : ℚ := 1
  capInset : ℚ := 0
  bisected : Bool := false
  csg : List CSGEntry := []
deriving DecidableEq, Repr

/-- Rigid-body role kinds (`O.rigidbody.object_add(type=...)`). -/
inductive RBType
  | ACTIVE
  | PASSIVE
deriving DecidableEq, Repr

/-- Rigid-body settings of an object.  The host defaults are collision
shape CONVEX_HULL and friction 0.5; the script overwrites them for
supports. -/
structure RigidBody where
  rbType : RBType
  collision_shape : String := "CONVEX_HULL"
  friction : ℚ := 1/2
deriving DecidableEq, Repr

/-- A named mesh object of the scene. -/
structure Obj where
  name : String
  location : Vec3
  scale : Vec3 := ⟨1, 1, 1⟩
  rotX : ℚ := 0
  mesh : Mesh
  selected : Bool := false
  rigid_body : Option RigidBody := none
deriving DecidableEq, Repr

/-- The shared document: the live objects in creation order plus the
active-object pointer (by name). -/
structure Scene where
  objects : List Obj := []
  active : Option String := none
deriving DecidableEq, Repr

/-- The empty document. -/
def emptyScene : Scene := ⟨[], none⟩

/-- First object of the given name, if any (the scene iteration order of
`get_object`). -/
def Scene.lookup (s : Scene) (n : String) : Option Obj :=
  s.objects.find? (fun o => o.name == n)

/-- Whether a name currently identifies a live object. -/
def Scene.nameTaken (s : Scene) (n : String) : Bool :=
  (s.lookup n).isSome

/-- Clear the selected flag of an object. -/
def unselect (o : Obj) : Obj := { o with selected := false }

/-- Deselect every object (the script's `deselect_all_meshes`; every
object of the modelled scene is a mesh). -/
def Scene.deselectAll (s : Scene) : Scene :=
  { s with objects := s.objects.map unselect }

/-- Apply `f` to every selected object (object-mode transforms act on the
current selection). -/
def Scene.mapSelected (s : Scene) (f : Obj → Obj) : Scene :=
  { s with objects := s.objects.map (fun o => if o.selected then f o else o) }

/-- Apply `f` to every object of the given name. -/
def Scene.mapObj (s : Scene) (n : String) (f : Obj → Obj) : Scene :=
  { s with objects := s.objects.map (fun o => if o.name == n then f o else o) }

/-- Apply a mesh-level edit to the active object (edit-mode operations
act on the active object's mesh). -/
def Scene.mapActiveMesh (s : Scene) (f : Mesh → Mesh) : Scene :=
  match s.active with
  | some n => s.mapObj n (fun o => { o with mesh := f o.mesh })
  | none => s

/-- Set the selected flag on every object of the given name (the effect
of `select_object` when the object exists). -/
def selectByName (s : Scene) (n : String) : Scene :=
  s.mapObj n (fun o => { o with selected := true })

/-- Remove every object of the given name (used to compute name
freshness relative to the rest of the scene during a rename). -/
def Scene.removeName (s : Scene) (n : String) : Scene :=
  { s with objects := s.objects.filter (fun o => !(o.name == n)) }

/-- The host's duplicate-name suffix: ".001", ".002", ... -/
def suffix3 (k : Nat) : String :=
  if k < 10 then ".00" ++ toString k
  else if k < 100 then ".0" ++ toString k
  else "." ++ toString k

/-- Search for the first free suffixed name (fuel-bounded scan). -/
def Scene.freshNameAux (s : Scene) (base : String) : Nat → Nat → String
  | 0, k => base ++ suffix3 k
  | fuel + 1, k =>
    let cand := base ++ suffix3 k
    if s.nameTaken cand then s.freshNameAux base fuel (k + 1) else cand

/-- The name the host actually assigns when asked for `base`: `base`
itself when free, otherwise the first free suffixed variant. -/
def Scene.freshName (s : Scene) (base : String) : String :=
  if s.nameTaken base then s.freshNameAux base (s.objects.length + 1) 1 else base

/-- Rename the object called `old` to `new`, returning the name the host
actually assigned (suffixed when `new` is taken by another object); a
rename to the object's current name is a no-op.  The active pointer
follows the rename. -/
def Scene.renameR (s : Scene) (old new : String) : Scene × String :=
  if old == new then (s, old)
  else
    let final := (s.removeName old).freshName new
    ({ objects := s.objects.map (fun o => if o.name == old then { o with name := final } else o),
       active := if s.active == some old then some final else s.active }, final)

/-- Delete every selected object (`O.object.delete`).  The active
pointer is cleared when the active object is deleted. -/
def Scene.deleteSelected (s : Scene) : Scene :=
  let objs := s.objects.filter (fun o => !o.selected)
  { objects := objs,
    active := match s.active with
      | some a => if objs.any (fun o => o.name == a) then some a else none
      | none => none }

/-- Default name and mesh of each host primitive.  The default cylinder
has radius 1, depth 2 and 34 polygons (32 side quads plus two caps); the
default plane is a single quad; the default circle is unfilled; the UV
sphere's polygon count is irrelevant to every builder. -/
def defaultMesh : MeshKind → String × Mesh
  | .cylinder => ("Cylinder", { kind := .cylinder, faceCount := 34 })
  | .plane => ("Plane", { kind := .plane, faceCount := 1 })
  | .circle => ("Circle", { kind := .circle, faceCount := 0 })
  | .sphere => ("Sphere", { kind := .sphere, faceCount := 512 })

/-- `O.mesh.primitive_*_add(location=...)`: deselect everything, insert
the new object under the first free variant of its default name, select
it and make it active. -/
def primitive_add (s : Scene) (k : MeshKind) (loc : Vec3) : Scene × String :=
  let s1 := s.deselectAll
  let base := (defaultMesh k).1
  let nm := s1.freshName base
  let o : Obj := { name := nm, location := loc, mesh := (defaultMesh k).2, selected := true }
  ({ objects := s1.objects ++ [o], active := some nm }, nm)

/-- `O.transform.resize` in object mode: scale every selected object. -/
def resize (s : Scene) (v : Vec3) : Scene :=
  s.mapSelected (fun o =>
    { o with scale := ⟨o.scale.x * v.x, o.scale.y * v.y, o.scale.z * v.z⟩ })

/-- `O.transform.translate` in object mode: move every selected object. -/
def translate (s : Scene) (v : Vec3) : Scene :=
  s.mapSelected (fun o =>
    { o with location := ⟨o.location.x + v.x, o.location.y + v.y, o.location.z + v.z⟩ })

/-- `O.transform.rotate(orient_axis='X')`: accumulate an X rotation on
every selected object. -/
def rotateX (s : Scene) (a : ℚ) : Scene :=
  s.mapSelected (fun o => { o with rotX := o.rotX + a })

/-- `O.rigidbody.object_add(type=...)`: attach a rigid body with host
defaults to the active object. -/
def rigidbody_object_add (s : Scene) (t : RBType) : Scene :=
  match s.active with
  | some n => s.mapObj n (fun o => { o with rigid_body := some { rbType := t } })
  | none => s

/-- `C.object.rigid_body.collision_shape = ...` on the active object. -/
def set_collision_shape (s : Scene) (shape : String) : Scene :=
  match s.active with
  | some n =>
    s.mapObj n (fun o =>
      { o with rigid_body := o.rigid_body.map (fun rb => { rb with collision_shape := shape }) })
  | none => s

/-- `C.object.rigid_body.friction = ...` on the active object. -/
def set_friction (s : Scene) (mu : ℚ) : Scene :=
  match s.active with
  | some n =>
    s.mapObj n (fun o =>
      { o with rigid_body := o.rigid_body.map (fun rb => { rb with friction := mu }) })
  | none => s

/-- World-space rim radius of the top opening (host cylinder has local
radius 1). -/
def Obj.topRadius (o : Obj) : ℚ := o.mesh.topRadiusMul * o.scale.x

/-- World-space rim radius of the bottom opening. -/
def Obj.bottomRadius (o : Obj) : ℚ := o.mesh.bottomRadiusMul * o.scale.x

/-- World-space height (host cylinder has local depth 2). -/
def Obj.height (o : Obj) : ℚ := 2 * o.scale.z

/-! ## Translations of the script's functions -/

/-- A Python value returned by `get_object`: either the found object or
the bare integer 0 printed-and-returned on a miss. -/
inductive PyVal
  | obj (o : Obj)
  | intZero
deriving DecidableEq, Repr

/-- The exception raised when Python evaluates `(0).select_set`. -/
inductive PyError
  | attributeError
deriving DecidableEq, Repr

/-- `get_object` (lines 12-19): scan the scene for the name; on a miss,
print a message and return the integer 0. -/
def get_object (s : Scene) (n : String) : PyVal :=
  match s.lookup n with
  | some o => .obj o
  | none => .intZero

/-- `select_object` (lines 26-29): `get_object` then `obj.select_set(True)`.
When `get_object` returned the 0 sentinel, the attribute access raises
`AttributeError` instead of producing a typed failure value. -/
def select_object (s : Scene) (n : String) : Except PyError (Scene × Obj) :=
  match get_object s n with
  | .obj o => .ok (selectByName s n, o)
  | .intZero => .error .attributeError

/-- The fixed vertical placement rule shared by every factory:
`z_mod = loc[2] * 1.5 + 0.75`, X and Y passed through. -/
def zMod (loc : Vec3) : Vec3 := ⟨loc.x, loc.y, loc.z * (3/2) + 3/4⟩

/-- The rename-after-creation loop shared by the factories: among the
selected objects, the one still carrying the factory's default name is
renamed to `name` (the host suffixing on a clash); the new object is
returned either way.  `created` is the name the primitive actually got;
when the default name was taken the loop matches nothing. -/
def factoryRename (s : Scene) (base created name : String) : Scene × String :=
  if created == base then s.renameR created name else (s, created)

/-- `create_plane` (lines 38-51). -/
def create_plane (s : Scene) (name : String) (loc : Vec3) (x_scl y_scl : ℚ) :
    Scene × String :=
  let p := primitive_add s .plane (zMod loc)
  let s2 := resize p.1 ⟨x_scl, y_scl, 0⟩
  factoryRename s2 "Plane" p.2 name

/-- `create_circle` (lines 60-73). -/
def create_circle (s : Scene) (name : String) (loc : Vec3) (x_scl y_scl : ℚ) :
    Scene × String :=
  let p := primitive_add s .circle (zMod loc)
  let s2 := resize p.1 ⟨x_scl, y_scl, 0⟩
  factoryRename s2 "Circle" p.2 name

/-- `create_marble` (lines 183-197): UV sphere, uniform resize, rename,
then an ACTIVE (dynamic) rigid body on the new (active) object. -/
def create_marble (s : Scene) (name : String) (loc : Vec3) (scl : ℚ) :
    Scene × String :=
  let p := primitive_add s .sphere (zMod loc)
  let s2 := resize p.1 ⟨scl, scl, scl⟩
  let r := factoryRename s2 "Sphere" p.2 name
  (rigidbody_object_add r.1 .ACTIVE, r.2)

/-- `create_cylinder` (lines 205-216). -/
def create_cylinder (s : Scene) (name : String) (loc : Vec3) : Scene × String :=
  let p := primitive_add s .cylinder (zMod loc)
  factoryRename p.1 "Cylinder" p.2 name

/-- `bool_meshes` (lines 150-160): add a Boolean modifier on `n1` with
object `n2`, make `n1` active and apply the modifier.  Only `n1`'s mesh
changes; the entry snapshots the secondary operand. -/
def boolApply (m : Mesh) (op : BoolOp) (other : Obj) : Mesh :=
  { m with csg := m.csg ++
      [⟨op, other.name, other.location, other.mesh.topOpen, other.mesh.bottomOpen⟩] }

/-- `bool_meshes` proper.  When `n2` names no object the Python would
raise a KeyError on `D.objects[name_2]`; the builders only call it with
live operands. -/
def bool_meshes (s : Scene) (n1 n2 : String) (op : BoolOp) : Scene :=
  match s.lookup n2 with
  | some o2 =>
    let s1 := s.mapObj n1 (fun o => { o with mesh := boolApply o.mesh op o2 })
    { s1 with active := some n1 }
  | none => s

/-- `unionize_meshes` (lines 168-174): select the primary, apply the
union, deselect everything, select the secondary and delete it.  Returns
the primary's name. -/
def unionize_meshes (s : Scene) (n1 n2 : String) : Scene × String :=
  let s1 := selectByName s n1
  let s2 := bool_meshes s1 n1 n2 .UNION
  let s3 := s2.deselectAll
  let s4 := selectByName s3 n2
  (s4.deleteSelected, n1)

/-- The cap-opening edit section of `create_support` (lines 238-262): the
loop insets the faces of index 30 ("Top") and 33 ("Bottom") twice
(thickness 0.125 then 0, each inset appending a ring of 32 faces),
translates the shrunk top cap down, and the second loop deletes the two
shrunk cap faces.  A face index that is not present in the mesh simply
never matches: no error of any kind is raised and that cap stays
closed. -/
def openCaps (m : Mesh) : Mesh :=
  let doTop := decide (30 < m.faceCount)
  let doBottom := decide (33 < m.faceCount)
  let m1 := if doTop then
      { m with faceCount := m.faceCount + 63, topOpen := true, capInset := 1/8 }
    else m
  if doBottom then
    { m1 with faceCount := m1.faceCount + 63, bottomOpen := true, capInset := 1/8 }
  else m1

/-- `create_support` (lines 226-271): refuse the factory's own default
name (print and return 0), otherwise create a cylinder, resize it to
tube proportions, open both caps, and tag the result as a PASSIVE rigid
body with MESH collision shape and friction 0.1. -/
def create_support (s : Scene) (name : String) (loc : Vec3) :
    Scene × Option String :=
  if name == "Cylinder" then (s, none)
  else
    let p := create_cylinder s name loc
    let s2 := resize p.1 ⟨1/2, 1/2, 3/4⟩
    let s3 := s2.mapActiveMesh openCaps
    let s4 := rigidbody_object_add s3 .PASSIVE
    let s5 := set_collision_shape s4 "MESH"
    let s6 := set_friction s5 (1/10)
    (s6.deselectAll, some p.2)

/-- The polygon index list `range(32, 64)` built by `create_start_funnel`. -/
def supportTopRing : List Nat := List.range' 32 32

/-- Modelled from the spec: the geometry host's polygon indexing of the
opened support mesh is outside the repository; per the spec (section
4.4) the selected indices 32-63 are exactly "the ring of faces forming
its top half", and an edit-mode resize of that selection by (1.5, 1.5, 1)
about its median scales the top rim radius while leaving the bottom rim
unchanged. -/
def editResizeFaces (m : Mesh) (sel : List Nat) (v : Vec3) : Mesh :=
  if sel = supportTopRing then { m with topRadiusMul := m.topRadiusMul * v.x }
  else m

/-- `create_start_funnel` (lines 279-293): build a support, select the
polygons 32-63 and scale them by (1.5, 1.5, 1) in edit mode.  When
`create_support` returned the 0 sentinel the Python would crash on
`funnel.data`; we propagate the sentinel. -/
def create_start_funnel (s : Scene) (name : String) (loc : Vec3) :
    Scene × Option String :=
  let p := create_support s name loc
  match p.2 with
  | none => (p.1, none)
  | some nm =>
    (p.1.mapObj nm (fun o =>
      { o with mesh := editResizeFaces o.mesh supportTopRing ⟨3/2, 3/2, 1⟩ }), some nm)

/-- The edge-bisect section of `create_track` (lines 363-367): cut with a
plane through `loc` with normal +Y, clearing the inner side. -/
def bisectClearInner (m : Mesh) : Mesh := { m with bisected := true }

/-- `track_length = 2.45` (line 355). -/
def track_length : ℚ := 49/20

/-- `create_track` (lines 354-405): support, bisect to a U-channel,
rotate/scale/nudge it, build a bore cutter and two end supports at
Y-offsets of minus/plus `track_length - 0.45`, subtract the cutter from
both end supports and only then delete it, union the end supports into
the channel, and union in an entry ramp plane. -/
def create_track (s : Scene) (name : String) (loc : Vec3) :
    Scene × Option String :=
  let mloc : Vec3 := ⟨loc.x + 0, loc.y + 0, loc.z + 0⟩
  match create_support s name mloc with
  | (s1, none) => (s1, none)
  | (s1, some track) =>
    let s2 := selectByName s1 track
    let s3 := s2.mapObj track (fun o => { o with mesh := bisectClearInner o.mesh })
    let s4 := rotateX s3 (33/20)
    let s5 := resize s4 ⟨4/5, track_length + 3/10, 4/5⟩
    let s6 := translate s5 ⟨0, -(1/4), 0⟩
    match create_cylinder s6 (name ++ "_hole_cutter") mloc with
    | (s7, cutter) =>
      let s8 := rotateX (selectByName s7 cutter) (33/20)
      let s9 := resize s8 ⟨3/8, track_length - 3/5, 3/8⟩
      match create_support s9 (name ++ "_e0")
          ⟨loc.x - 0, loc.y - (track_length - 9/20), loc.z - 0⟩ with
      | (s10, none) => (s10, none)
      | (s10, some e0) =>
        match create_support s10 (name ++ "_e1")
            ⟨loc.x - 0, loc.y - (9/20 - track_length), loc.z - 0⟩ with
        | (s11, none) => (s11, none)
        | (s11, some e1) =>
          let t2 := bool_meshes (selectByName s11 cutter) e0 cutter .DIFFERENCE
          let t5 := bool_meshes (selectByName t2.deselectAll cutter) e1 cutter .DIFFERENCE
          let t8 := (selectByName t5.deselectAll cutter).deleteSelected
          match unionize_meshes t8 track e0 with
          | (u1, _) =>
            match unionize_meshes u1 track e1 with
            | (u2, _) =>
              match create_plane u2 (name ++ "_p0")
                  ⟨loc.x - 0, loc.y - (track_length - 9/20), loc.z - 0⟩ (7/20) (9/20) with
              | (v0, p0) =>
                let v2 := rigidbody_object_add (rotateX v0 (7/10)) .PASSIVE
                match unionize_meshes v2 track p0 with
                | (w, _) => (w, some track)

/-! ## Closed forms and concrete fixtures used by the proofs

The `cf*` definitions below are not translations of source code: they are
the computed intermediate states of `create_track` on the empty scene,
derived by hand from the definitions above and verified against them in
the staged proof of `track_closed_form`.  `wScene` is a small concrete
two-object scene used to instantiate general theorems, and `badCylMesh`
is a cylinder mesh with a tessellation (18 faces) different from the one
`create_support` assumes (34 faces). -/

/-- A cylinder mesh whose tessellation differs from the host default
(18 faces instead of 34, e.g. a 16-vertex cylinder): faces 30 and 33 do
not exist on it. -/
def badCylMesh : Mesh := { kind := .cylinder, faceCount := 18 }

/-- Concrete fixture object "A": an untouched default cylinder. -/
def wObjA : Obj :=
  { name := "A", location := ⟨0, 0, 0⟩, mesh := { kind := .cylinder, faceCount := 34 } }

/-- Concrete fixture object "B": an untouched default cylinder. -/
def wObjB : Obj :=
  { name := "B", location := ⟨0, 1, 0⟩, mesh := { kind := .cylinder, faceCount := 34 } }

/-- Concrete fixture scene holding `wObjA` and `wObjB`. -/
def wScene : Scene := { objects := [wObjA, wObjB], active := none }

/-- The rigid-body settings create_support leaves on a support. -/
def cfStaticRB : RigidBody := { rbType := .PASSIVE, collision_shape := "MESH", friction := 1/10 }

/-- The mesh of an opened support tube (both caps perforated), possibly
bisected, with a given CSG log. -/
def cfOpenMesh (b : Bool) (entries : List CSGEntry) : Mesh :=
  { kind := .cylinder, faceCount := 160, topOpen := true, bottomOpen := true,
    topRadiusMul := 1, bottomRadiusMul := 1, capInset := 1/8, bisected := b, csg := entries }

/-- A freshly built support object at a world location. -/
def cfSupport (nm : String) (l : Vec3) (entries : List CSGEntry) : Obj :=
  { name := nm, location := l, scale := ⟨1/2, 1/2, 3/4⟩, rotX := 0,
    mesh := cfOpenMesh false entries, selected := false, rigid_body := some cfStaticRB }

/-- The track channel piece: a support bisected, tilted by 1.65 rad,
stretched along Y and nudged. -/
def cfChannel (l : Vec3) (sel : Bool) (entries : List CSGEntry) : Obj :=
  { name := "T_0", location := l, scale := ⟨2/5, 11/8, 3/5⟩, rotX := 33/20,
    mesh := cfOpenMesh true entries, selected := sel, rigid_body := some cfStaticRB }

/-- The bore cutter cylinder of the track builder. -/
def cfCutter (l : Vec3) (sel : Bool) (scl : Vec3) (rx : ℚ) : Obj :=
  { name := "T_0_hole_cutter", location := l, scale := scl, rotX := rx,
    mesh := { kind := .cylinder, faceCount := 34 }, selected := sel, rigid_body := none }

/-- World location of the track piece and cutter (zMod applied to loc). -/
def cfM (loc : Vec3) : Vec3 := ⟨loc.x, loc.y, loc.z * (3/2) + 3/4⟩

/-- World location of the channel after its -0.25 Y nudge. -/
def cfT (loc : Vec3) : Vec3 := ⟨loc.x, loc.y - 1/4, loc.z * (3/2) + 3/4⟩

/-- World location of end support e0 (entry side, Y offset -2). -/
def cfE0 (loc : Vec3) : Vec3 := ⟨loc.x, loc.y - 2, loc.z * (3/2) + 3/4⟩

/-- World location of end support e1 (exit side, Y offset +2). -/
def cfE1 (loc : Vec3) : Vec3 := ⟨loc.x, loc.y + 2, loc.z * (3/2) + 3/4⟩

/-- CSG log entry of the bore difference cut into each end support. -/
def cfCutEntry (loc : Vec3) : CSGEntry := ⟨.DIFFERENCE, "T_0_hole_cutter", cfM loc, false, false⟩

/-- CSG log entry of the union with end support e0. -/
def cfE0Entry (loc : Vec3) : CSGEntry := ⟨.UNION, "T_0_e0", cfE0 loc, true, true⟩

/-- CSG log entry of the union with end support e1. -/
def cfE1Entry (loc : Vec3) : CSGEntry := ⟨.UNION, "T_0_e1", cfE1 loc, true, true⟩

/-- CSG log entry of the union with the entry ramp plane p0. -/
def cfP0Entry (loc : Vec3) : CSGEntry := ⟨.UNION, "T_0_p0", cfE0 loc, false, false⟩

/-- The entry ramp plane of the track builder. -/
def cfPlane (loc : Vec3) (rx : ℚ) (rb : Option RigidBody) : Obj :=
  { name := "T_0_p0", location := cfE0 loc, scale := ⟨7/20, 9/20, 0⟩, rotX := rx,
    mesh := { kind := .plane, faceCount := 1 }, selected := true, rigid_body := rb }

/-- Stage: after the initial support of the track. -/
def cfS1 (loc : Vec3) : Scene := ⟨[cfSupport "T_0" (cfM loc) []], some "T_0"⟩

/-- Stage: after bisect, rotate, resize, translate of the channel. -/
def cfS6 (loc : Vec3) : Scene := ⟨[cfChannel (cfT loc) true []], some "T_0"⟩

/-- Stage: after creating the bore cutter. -/
def cfS7 (loc : Vec3) : Scene :=
  ⟨[cfChannel (cfT loc) false [], cfCutter (cfM loc) true ⟨1, 1, 1⟩ 0], some "T_0_hole_cutter"⟩

/-- Stage: after rotating and resizing the cutter. -/
def cfS9 (loc : Vec3) : Scene :=
  ⟨[cfChannel (cfT loc) false [], cfCutter (cfM loc) true ⟨3/8, 37/20, 3/8⟩ (33/20)],
    some "T_0_hole_cutter"⟩

/-- Stage: after building end support e0. -/
def cfS10 (loc : Vec3) : Scene :=
  ⟨[cfChannel (cfT loc) false [], cfCutter (cfM loc) false ⟨3/8, 37/20, 3/8⟩ (33/20),
    cfSupport "T_0_e0" (cfE0 loc) []], some "T_0_e0"⟩

/-- Stage: after building end support e1. -/
def cfS11 (loc : Vec3) : Scene :=
  ⟨[cfChannel (cfT loc) false [], cfCutter (cfM loc) false ⟨3/8, 37/20, 3/8⟩ (33/20),
    cfSupport "T_0_e0" (cfE0 loc) [], cfSupport "T_0_e1" (cfE1 loc) []], some "T_0_e1"⟩

/-- Stage: after boring both end supports and deleting the cutter. -/
def cfT8 (loc : Vec3) : Scene :=
  ⟨[cfChannel (cfT loc) false [], cfSupport "T_0_e0" (cfE0 loc) [cfCutEntry loc],
    cfSupport "T_0_e1" (cfE1 loc) [cfCutEntry loc]], some "T_0_e1"⟩

/-- Stage: after the union with e0 (e0 destroyed). -/
def cfU1 (loc : Vec3) : Scene :=
  ⟨[cfChannel (cfT loc) false [cfE0Entry loc], cfSupport "T_0_e1" (cfE1 loc) [cfCutEntry loc]],
    some "T_0"⟩

/-- Stage: after the union with e1 (e1 destroyed). -/
def cfU2 (loc : Vec3) : Scene :=
  ⟨[cfChannel (cfT loc) false [cfE0Entry loc, cfE1Entry loc]], some "T_0"⟩

/-- Stage: after creating the entry ramp plane. -/
def cfV0 (loc : Vec3) : Scene :=
  ⟨[cfChannel (cfT loc) false [cfE0Entry loc, cfE1Entry loc], cfPlane loc 0 none], some "T_0_p0"⟩

/-- Stage: after rotating the ramp and tagging it PASSIVE. -/
def cfV2 (loc : Vec3) : Scene :=
  ⟨[cfChannel (cfT loc) false [cfE0Entry loc, cfE1Entry loc],
    cfPlane loc (7/10) (some { rbType := .PASSIVE })], some "T_0_p0"⟩

/-- Final state of create_track on the empty scene: the single surviving
track Solid with the three union entries in its CSG log. -/
def cfW (loc : Vec3) : Scene :=
  ⟨[cfChannel (cfT loc) false [cfE0Entry loc, cfE1Entry loc, cfP0Entry loc]], some "T_0"⟩

/-! ## General lemmas about the scene operations -/

/-- A name-indexed pointwise map leaves `find?` by a different name
untouched, provided the mapped function preserves names. -/
theorem find?_name_mapIf (l : List Obj) (n m : String) (f : Obj → Obj)
    (hf : ∀ o, (f o).name = o.name) (h : m ≠ n) :
    (l.map (fun o => if o.name == n then f o else o)).find? (fun o => o.name == m) =
      l.find? (fun o => o.name == m) := by
  induction l with
  | nil => rfl
  | cons a t ih =>
    simp only [List.map_cons]
    by_cases hm : a.name = m
    · have hn : ¬ ((a.name == n) = true) := by simp [hm, h]
      rw [if_neg hn]
      have hb : (a.name == m) = true := by simp [hm]
      simp only [List.find?, hb]
    · have hname : (if (a.name == n) = true then f a else a).name = a.name := by
        by_cases hn : (a.name == n) = true
        · rw [if_pos hn]; exact hf a
        · rw [if_neg hn]
      have hb : (a.name == m) = false := by simp [hm]
      have hb2 : ((if (a.name == n) = true then f a else a).name == m) = false := by
        rw [hname]; exact hb
      simp only [List.find?, hb, hb2, ih]

/-- A name-indexed pointwise map acts on the object `find?` locates under
that very name, provided the mapped function preserves names. -/
theorem find?_name_mapIf_self (l : List Obj) (n : String) (f : Obj → Obj)
    (hf : ∀ o, (f o).name = o.name) :
    (l.map (fun o => if o.name == n then f o else o)).find? (fun o => o.name == n) =
      (l.find? (fun o => o.name == n)).map f := by
  induction l with
  | nil => rfl
  | cons a t ih =>
    simp only [List.map_cons]
    by_cases hn : a.name = n
    · have hb : (a.name == n) = true := by simp [hn]
      have hfb : ((f a).name == n) = true := by rw [hf]; exact hb
      rw [if_pos hb]
      simp only [List.find?, hb, hfb]
      rfl
    · have hb : (a.name == n) = false := by simp [hn]
      rw [if_neg (by simp [hn])]
      simp only [List.find?, hb, ih]

/-- `mapObj` does not change the lookup of any other name. -/
theorem lookup_mapObj_ne (s : Scene) (n m : String) (f : Obj → Obj)
    (hf : ∀ o, (f o).name = o.name) (h : m ≠ n) :
    (s.mapObj n f).lookup m = s.lookup m :=
  find?_name_mapIf s.objects n m f hf h

/-- `mapObj` maps the lookup of the targeted name. -/
theorem lookup_mapObj_self (s : Scene) (n : String) (f : Obj → Obj)
    (hf : ∀ o, (f o).name = o.name) :
    (s.mapObj n f).lookup n = (s.lookup n).map f :=
  find?_name_mapIf_self s.objects n f hf

/-- Unfolding of `bool_meshes` when the secondary operand is live. -/
theorem bool_meshes_some (s : Scene) (n1 n2 : String) (op : BoolOp) (o2 : Obj)
    (h : s.lookup n2 = some o2) :
    bool_meshes s n1 n2 op =
      { objects := (s.mapObj n1 (fun o => { o with mesh := boolApply o.mesh op o2 })).objects,
        active := some n1 } := by
  unfold bool_meshes
  rw [h]

/-- Unfolding of `bool_meshes` when the secondary operand is absent. -/
theorem bool_meshes_none (s : Scene) (n1 n2 : String) (op : BoolOp)
    (h : s.lookup n2 = none) :
    bool_meshes s n1 n2 op = s := by
  unfold bool_meshes
  rw [h]

/-- The deselect-all, select-one-name, delete-selected sequence at the
tail of `unionize_meshes` removes exactly the objects of that name and
leaves everything else deselected. -/
theorem cleanup_objects (l : List Obj) (n : String) :
    ((l.map unselect).map (fun o => if o.name == n then { o with selected := true } else o)).filter
      (fun o => !o.selected) =
      (l.filter (fun o => !(o.name == n))).map unselect := by
  induction l with
  | nil => rfl
  | cons a t ih =>
    simp only [List.map_cons, List.filter_cons]
    by_cases hn : a.name = n
    · have hb : ((unselect a).name == n) = true := by simp [unselect, hn]
      have hb2 : (a.name == n) = true := by simp [hn]
      rw [if_pos hb, hb2]
      simp only [unselect, Bool.not_true, Bool.false_eq_true, if_false]
      exact ih
    · have hb : ((unselect a).name == n) = false := by simp [unselect, hn]
      have hb2 : (a.name == n) = false := by simp [hn]
      rw [hb, hb2]
      simp only [Bool.false_eq_true, if_false, Bool.not_false, if_true]
      simp only [unselect, Bool.not_true, Bool.false_eq_true, if_false, Bool.not_false, if_true]
      rw [ih, List.map_cons]
      simp [unselect]

/-- After deleting every object of a name, lookup of that name fails. -/
theorem cleanup_find_self (l : List Obj) (n : String) :
    (((l.filter (fun o => !(o.name == n))).map unselect).find? (fun o => o.name == n)) = none := by
  rw [List.find?_eq_none]
  intro x hx
  simp only [List.mem_map, List.mem_filter] at hx
  obtain ⟨y, ⟨hy, hyn⟩, rfl⟩ := hx
  simp only [unselect]
  simpa using hyn

/-- Deleting every object of one name preserves whether a different name
is live. -/
theorem cleanup_find_ne (l : List Obj) (n m : String) (h : m ≠ n) :
    ((((l.filter (fun o => !(o.name == n))).map unselect).find? (fun o => o.name == m))).isSome =
      (l.find? (fun o => o.name == m)).isSome := by
  induction l with
  | nil => rfl
  | cons a t ih =>
    simp only [List.filter_cons]
    by_cases hm : a.name = m
    · have hc : (!(a.name == n)) = true := by simp [hm, h]
      have hb : ((unselect a).name == m) = true := by simp [unselect, hm]
      have hb2 : (a.name == m) = true := by simp [hm]
      rw [hc, if_pos rfl]
      simp only [List.map_cons, List.find?, hb, hb2]
      rfl
    · by_cases hn : a.name = n
      · have hc : (!(a.name == n)) = false := by simp [hn]
        have hb2 : (a.name == m) = false := by simp [hm]
        rw [hc]
        simp only [Bool.false_eq_true, if_false, List.find?, hb2, ih]
      · have hc : (!(a.name == n)) = true := by simp [hn]
        have hb : ((unselect a).name == m) = false := by simp [unselect, hm]
        have hb2 : (a.name == m) = false := by simp [hm]
        rw [hc, if_pos rfl]
        simp only [List.map_cons, List.find?, hb, hb2, ih]

/-- Selecting an object does not create or destroy names. -/
theorem nameTaken_selectByName (s : Scene) (n m : String) :
    (selectByName s n).nameTaken m = s.nameTaken m := by
  unfold Scene.nameTaken selectByName
  by_cases h : m = n
  · subst h
    rw [lookup_mapObj_self s m (fun o => { o with selected := true }) (fun o => rfl)]
    simp [Option.isSome_map]
  · rw [lookup_mapObj_ne s n m (fun o => { o with selected := true }) (fun o => rfl) h]

/-- A boolean modifier application does not create or destroy names. -/
theorem nameTaken_bool_meshes (s : Scene) (n1 n2 m : String) (op : BoolOp) :
    (bool_meshes s n1 n2 op).nameTaken m = s.nameTaken m := by
  cases h : s.lookup n2 with
  | none => rw [bool_meshes_none s n1 n2 op h]
  | some o2 =>
    rw [bool_meshes_some s n1 n2 op o2 h]
    unfold Scene.nameTaken
    by_cases hm : m = n1
    · subst hm
      have he : (Scene.lookup { objects := (s.mapObj m fun o =>
            { o with mesh := boolApply o.mesh op o2 }).objects, active := some m } m) =
          (s.mapObj m fun o => { o with mesh := boolApply o.mesh op o2 }).lookup m := rfl
      rw [he, lookup_mapObj_self s m (fun o => { o with mesh := boolApply o.mesh op o2 })
        (fun o => rfl)]
      simp [Option.isSome_map]
    · have he : (Scene.lookup { objects := (s.mapObj n1 fun o =>
            { o with mesh := boolApply o.mesh op o2 }).objects, active := some n1 } m) =
          (s.mapObj n1 fun o => { o with mesh := boolApply o.mesh op o2 }).lookup m := rfl
      rw [he, lookup_mapObj_ne s n1 m (fun o => { o with mesh := boolApply o.mesh op o2 })
        (fun o => rfl) hm]

/-- Closed form of `create_track` on the empty scene, proved by stepping
the pipeline one host operation at a time. -/
theorem track_closed_form (loc : Vec3) :
    create_track emptyScene "T_0" loc = (cfW loc, some "T_0") := by
  have h1 : create_support emptyScene "T_0" ⟨loc.x + 0, loc.y + 0, loc.z + 0⟩ =
      (cfS1 loc, some "T_0") := by
    simp only [create_support, create_cylinder, create_plane, primitive_add, emptyScene,
      Scene.deselectAll, Scene.freshName, Scene.nameTaken, Scene.lookup, factoryRename,
      Scene.renameR, Scene.removeName, resize, translate, rotateX, Scene.mapSelected,
      Scene.mapActiveMesh, Scene.mapObj, openCaps, rigidbody_object_add, set_collision_shape,
      set_friction, defaultMesh, unselect, selectByName, bool_meshes, boolApply,
      unionize_meshes, Scene.deleteSelected, bisectClearInner, track_length, zMod,
      cfS1, cfS6, cfS7, cfS9, cfS10, cfS11, cfT8, cfU1, cfU2, cfV0, cfV2, cfW,
      cfSupport, cfChannel, cfCutter, cfPlane, cfOpenMesh, cfStaticRB,
      cfM, cfT, cfE0, cfE1, cfCutEntry, cfE0Entry, cfE1Entry, cfP0Entry]
    simp [unselect, track_length]
    all_goals try ring_nf
    all_goals try norm_num
  have e6 : translate (resize (rotateX ((selectByName (cfS1 loc) "T_0").mapObj "T_0"
        (fun o => { o with mesh := bisectClearInner o.mesh })) (33/20))
        ⟨4/5, track_length + 3/10, 4/5⟩) ⟨0, -(1/4), 0⟩ = cfS6 loc := by
    simp only [create_support, create_cylinder, create_plane, primitive_add, emptyScene,
      Scene.deselectAll, Scene.freshName, Scene.nameTaken, Scene.lookup, factoryRename,
      Scene.renameR, Scene.removeName, resize, translate, rotateX, Scene.mapSelected,
      Scene.mapActiveMesh, Scene.mapObj, openCaps, rigidbody_object_add, set_collision_shape,
      set_friction, defaultMesh, unselect, selectByName, bool_meshes, boolApply,
      unionize_meshes, Scene.deleteSelected, bisectClearInner, track_length, zMod,
      cfS1, cfS6, cfS7, cfS9, cfS10, cfS11, cfT8, cfU1, cfU2, cfV0, cfV2, cfW,
      cfSupport, cfChannel, cfCutter, cfPlane, cfOpenMesh, cfStaticRB,
      cfM, cfT, cfE0, cfE1, cfCutEntry, cfE0Entry, cfE1Entry, cfP0Entry]
    simp [unselect, track_length]
    all_goals try ring_nf
    all_goals try norm_num
  have h7 : create_cylinder (cfS6 loc) ("T_0" ++ "_hole_cutter")
        ⟨loc.x + 0, loc.y + 0, loc.z + 0⟩ = (cfS7 loc, "T_0_hole_cutter") := by
    simp only [create_support, create_cylinder, create_plane, primitive_add, emptyScene,
      Scene.deselectAll, Scene.freshName, Scene.nameTaken, Scene.lookup, factoryRename,
      Scene.renameR, Scene.removeName, resize, translate, rotateX, Scene.mapSelected,
      Scene.mapActiveMesh, Scene.mapObj, openCaps, rigidbody_object_add, set_collision_shape,
      set_friction, defaultMesh, unselect, selectByName, bool_meshes, boolApply,
      unionize_meshes, Scene.deleteSelected, bisectClearInner, track_length, zMod,
      cfS1, cfS6, cfS7, cfS9, cfS10, cfS11, cfT8, cfU1, cfU2, cfV0, cfV2, cfW,
      cfSupport, cfChannel, cfCutter, cfPlane, cfOpenMesh, cfStaticRB,
      cfM, cfT, cfE0, cfE1, cfCutEntry, cfE0Entry, cfE1Entry, cfP0Entry]
    simp [unselect, track_length]
    all_goals try ring_nf
    all_goals try norm_num
  have e9 : resize (rotateX (selectByName (cfS7 loc) "T_0_hole_cutter") (33/20))
        ⟨3/8, track_length - 3/5, 3/8⟩ = cfS9 loc := by
    simp only [create_support, create_cylinder, create_plane, primitive_add, emptyScene,
      Scene.deselectAll, Scene.freshName, Scene.nameTaken, Scene.lookup, factoryRename,
      Scene.renameR, Scene.removeName, resize, translate, rotateX, Scene.mapSelected,
      Scene.mapActiveMesh, Scene.mapObj, openCaps, rigidbody_object_add, set_collision_shape,
      set_friction, defaultMesh, unselect, selectByName, bool_meshes, boolApply,
      unionize_meshes, Scene.deleteSelected, bisectClearInner, track_length, zMod,
      cfS1, cfS6, cfS7, cfS9, cfS10, cfS11, cfT8, cfU1, cfU2, cfV0, cfV2, cfW,
      cfSupport, cfChannel, cfCutter, cfPlane, cfOpenMesh, cfStaticRB,
      cfM, cfT, cfE0, cfE1, cfCutEntry, cfE0Entry, cfE1Entry, cfP0Entry]
    simp [unselect, track_length]
    all_goals try ring_nf
    all_goals try norm_num
  have h10 : create_support (cfS9 loc) ("T_0" ++ "_e0")
        ⟨loc.x - 0, loc.y - (track_length - 9/20), loc.z - 0⟩ = (cfS10 loc, some "T_0_e0") := by
    simp only [create_support, create_cylinder, create_plane, primitive_add, emptyScene,
      Scene.deselectAll, Scene.freshName, Scene.nameTaken, Scene.lookup, factoryRename,
      Scene.renameR, Scene.removeName, resize, translate, rotateX, Scene.mapSelected,
      Scene.mapActiveMesh, Scene.mapObj, openCaps, rigidbody_object_add, set_collision_shape,
      set_friction, defaultMesh, unselect, selectByName, bool_meshes, boolApply,
      unionize_meshes, Scene.deleteSelected, bisectClearInner, track_length, zMod,
      cfS1, cfS6, cfS7, cfS9, cfS10, cfS11, cfT8, cfU1, cfU2, cfV0, cfV2, cfW,
      cfSupport, cfChannel, cfCutter, cfPlane, cfOpenMesh, cfStaticRB,
      cfM, cfT, cfE0, cfE1, cfCutEntry, cfE0Entry, cfE1Entry, cfP0Entry]
    simp [unselect, track_length]
    all_goals try ring_nf
    all_goals try norm_num
  have h11 : create_support (cfS10 loc) ("T_0" ++ "_e1")
        ⟨loc.x - 0, loc.y - (9/20 - track_length), loc.z - 0⟩ = (cfS11 loc, some "T_0_e1") := by
    simp only [create_support, create_cylinder, create_plane, primitive_add, emptyScene,
      Scene.deselectAll, Scene.freshName, Scene.nameTaken, Scene.lookup, factoryRename,
      Scene.renameR, Scene.removeName, resize, translate, rotateX, Scene.mapSelected,
      Scene.mapActiveMesh, Scene.mapObj, openCaps, rigidbody_object_add, set_collision_shape,
      set_friction, defaultMesh, unselect, selectByName, bool_meshes, boolApply,
      unionize_meshes, Scene.deleteSelected, bisectClearInner, track_length, zMod,
      cfS1, cfS6, cfS7, cfS9, cfS10, cfS11, cfT8, cfU1, cfU2, cfV0, cfV2, cfW,
      cfSupport, cfChannel, cfCutter, cfPlane, cfOpenMesh, cfStaticRB,
      cfM, cfT, cfE0, cfE1, cfCutEntry, cfE0Entry, cfE1Entry, cfP0Entry]
    simp [unselect, track_length]
    all_goals try ring_nf
    all_goals try norm_num
  have et8 : (selectByName (bool_meshes (selectByName (bool_meshes
        (selectByName (cfS11 loc) "T_0_hole_cutter") "T_0_e0" "T_0_hole_cutter"
          .DIFFERENCE).deselectAll "T_0_hole_cutter") "T_0_e1" "T_0_hole_cutter"
          .DIFFERENCE).deselectAll "T_0_hole_cutter").deleteSelected = cfT8 loc := by
    simp only [create_support, create_cylinder, create_plane, primitive_add, emptyScene,
      Scene.deselectAll, Scene.freshName, Scene.nameTaken, Scene.lookup, factoryRename,
      Scene.renameR, Scene.removeName, resize, translate, rotateX, Scene.mapSelected,
      Scene.mapActiveMesh, Scene.mapObj, openCaps, rigidbody_object_add, set_collision_shape,
      set_friction, defaultMesh, unselect, selectByName, bool_meshes, boolApply,
      unionize_meshes, Scene.deleteSelected, bisectClearInner, track_length, zMod,
      cfS1, cfS6, cfS7, cfS9, cfS10, cfS11, cfT8, cfU1, cfU2, cfV0, cfV2, cfW,
      cfSupport, cfChannel, cfCutter, cfPlane, cfOpenMesh, cfStaticRB,
      cfM, cfT, cfE0, cfE1, cfCutEntry, cfE0Entry, cfE1Entry, cfP0Entry]
    simp [unselect, track_length]
    all_goals try ring_nf
    all_goals try norm_num
  have hu1 : unionize_meshes (cfT8 loc) "T_0" "T_0_e0" = (cfU1 loc, "T_0") := by
    simp only [create_support, create_cylinder, create_plane, primitive_add, emptyScene,
      Scene.deselectAll, Scene.freshName, Scene.nameTaken, Scene.lookup, factoryRename,
      Scene.renameR, Scene.removeName, resize, translate, rotateX, Scene.mapSelected,
      Scene.mapActiveMesh, Scene.mapObj, openCaps, rigidbody_object_add, set_collision_shape,
      set_friction, defaultMesh, unselect, selectByName, bool_meshes, boolApply,
      unionize_meshes, Scene.deleteSelected, bisectClearInner, track_length, zMod,
      cfS1, cfS6, cfS7, cfS9, cfS10, cfS11, cfT8, cfU1, cfU2, cfV0, cfV2, cfW,
      cfSupport, cfChannel, cfCutter, cfPlane, cfOpenMesh, cfStaticRB,
      cfM, cfT, cfE0, cfE1, cfCutEntry, cfE0Entry, cfE1Entry, cfP0Entry]
    simp [unselect, track_length]
    all_goals try ring_nf
    all_goals try norm_num
  have hu2 : unionize_meshes (cfU1 loc) "T_0" "T_0_e1" = (cfU2 loc, "T_0") := by
    simp only [create_support, create_cylinder, create_plane, primitive_add, emptyScene,
      Scene.deselectAll, Scene.freshName, Scene.nameTaken, Scene.lookup, factoryRename,
      Scene.renameR, Scene.removeName, resize, translate, rotateX, Scene.mapSelected,
      Scene.mapActiveMesh, Scene.mapObj, openCaps, rigidbody_object_add, set_collision_shape,
      set_friction, defaultMesh, unselect, selectByName, bool_meshes, boolApply,
      unionize_meshes, Scene.deleteSelected, bisectClearInner, track_length, zMod,
      cfS1, cfS6, cfS7, cfS9, cfS10, cfS11, cfT8, cfU1, cfU2, cfV0, cfV2, cfW,
      cfSupport, cfChannel, cfCutter, cfPlane, cfOpenMesh, cfStaticRB,
      cfM, cfT, cfE0, cfE1, cfCutEntry, cfE0Entry, cfE1Entry, cfP0Entry]
    simp [unselect, track_length]
    all_goals try ring_nf
    all_goals try norm_num
  have hp : create_plane (cfU2 loc) ("T_0" ++ "_p0")
        ⟨loc.x - 0, loc.y - (track_length - 9/20), loc.z - 0⟩ (7/20) (9/20) =
      (cfV0 loc, "T_0_p0") := by
    simp only [create_support, create_cylinder, create_plane, primitive_add, emptyScene,
      Scene.deselectAll, Scene.freshName, Scene.nameTaken, Scene.lookup, factoryRename,
      Scene.renameR, Scene.removeName, resize, translate, rotateX, Scene.mapSelected,
      Scene.mapActiveMesh, Scene.mapObj, openCaps, rigidbody_object_add, set_collision_shape,
      set_friction, defaultMesh, unselect, selectByName, bool_meshes, boolApply,
      unionize_meshes, Scene.deleteSelected, bisectClearInner, track_length, zMod,
      cfS1, cfS6, cfS7, cfS9, cfS10, cfS11, cfT8, cfU1, cfU2, cfV0, cfV2, cfW,
      cfSupport, cfChannel, cfCutter, cfPlane, cfOpenMesh, cfStaticRB,
      cfM, cfT, cfE0, cfE1, cfCutEntry, cfE0Entry, cfE1Entry, cfP0Entry]
    simp [unselect, track_length]
    all_goals try ring_nf
    all_goals try norm_num
  have ev2 : rigidbody_object_add (rotateX (cfV0 loc) (7/10)) .PASSIVE = cfV2 loc := by
    simp only [create_support, create_cylinder, create_plane, primitive_add, emptyScene,
      Scene.deselectAll, Scene.freshName, Scene.nameTaken, Scene.lookup, factoryRename,
      Scene.renameR, Scene.removeName, resize, translate, rotateX, Scene.mapSelected,
      Scene.mapActiveMesh, Scene.mapObj, openCaps, rigidbody_object_add, set_collision_shape,
      set_friction, defaultMesh, unselect, selectByName, bool_meshes, boolApply,
      unionize_meshes, Scene.deleteSelected, bisectClearInner, track_length, zMod,
      cfS1, cfS6, cfS7, cfS9, cfS10, cfS11, cfT8, cfU1, cfU2, cfV0, cfV2, cfW,
      cfSupport, cfChannel, cfCutter, cfPlane, cfOpenMesh, cfStaticRB,
      cfM, cfT, cfE0, cfE1, cfCutEntry, cfE0Entry, cfE1Entry, cfP0Entry]
    simp [unselect, track_length]
    all_goals try ring_nf
    all_goals try norm_num
  have hw : unionize_meshes (cfV2 loc) "T_0" "T_0_p0" = (cfW loc, "T_0") := by
    simp only [create_support, create_cylinder, create_plane, primitive_add, emptyScene,
      Scene.deselectAll, Scene.freshName, Scene.nameTaken, Scene.lookup, factoryRename,
      Scene.renameR, Scene.removeName, resize, translate, rotateX, Scene.mapSelected,
      Scene.mapActiveMesh, Scene.mapObj, openCaps, rigidbody_object_add, set_collision_shape,
      set_friction, defaultMesh, unselect, selectByName, bool_meshes, boolApply,
      unionize_meshes, Scene.deleteSelected, bisectClearInner, track_length, zMod,
      cfS1, cfS6, cfS7, cfS9, cfS10, cfS11, cfT8, cfU1, cfU2, cfV0, cfV2, cfW,
      cfSupport, cfChannel, cfCutter, cfPlane, cfOpenMesh, cfStaticRB,
      cfM, cfT, cfE0, cfE1, cfCutEntry, cfE0Entry, cfE1Entry, cfP0Entry]
    simp [unselect, track_length]
    all_goals try ring_nf
    all_goals try norm_num
  simp only [create_track]
  rw [h1]
  dsimp only
  rw [e6, h7]
  dsimp only
  rw [e9, h10]
  dsimp only
  rw [h11]
  dsimp only
  rw [et8, hu1]
  dsimp only
  rw [hu2]
  dsimp only
  rw [hp]
  dsimp only
  rw [ev2, hw]

/-! ## The claims -/

/-- Claim C1: for every (non-reserved) name and every location,
`create_support` on the empty scene returns a Solid that is a hollow
open-ended tube of radius 0.5 and height 1.5, built by resizing the unit
cylinder by (0.5, 0.5, 0.75) and opening both caps with a 0.125 inset
rim, tagged as a static MESH-collision rigid body with friction 0.1.
The reserved factory default name "Cylinder" is the failure path of
claim C8 and is excluded here. -/
theorem C1_support_shape (name : String) (loc : Vec3) (h : name ≠ "Cylinder") :
    (create_support emptyScene name loc).2 = some name ∧
    ((create_support emptyScene name loc).1.lookup name).map Obj.topRadius = some (1/2) ∧
    ((create_support emptyScene name loc).1.lookup name).map Obj.bottomRadius = some (1/2) ∧
    ((create_support emptyScene name loc).1.lookup name).map Obj.height = some (3/2) ∧
    ((create_support emptyScene name loc).1.lookup name).map (fun o => o.mesh.topOpen) =
      some true ∧
    ((create_support emptyScene name loc).1.lookup name).map (fun o => o.mesh.bottomOpen) =
      some true ∧
    ((create_support emptyScene name loc).1.lookup name).map (fun o => o.mesh.capInset) =
      some (1/8) ∧
    ((create_support emptyScene name loc).1.lookup name).map (fun o => o.mesh.kind) =
      some MeshKind.cylinder ∧
    ((create_support emptyScene name loc).1.lookup name).map (fun o => o.scale) =
      some ⟨1/2, 1/2, 3/4⟩ ∧
    ((create_support emptyScene name loc).1.lookup name).map (fun o => o.location) =
      some (zMod loc) ∧
    ((create_support emptyScene name loc).1.lookup name).map (fun o => o.rigid_body) =
      some (some ⟨RBType.PASSIVE, "MESH", 1/10⟩) := by
  simp only [create_support, create_cylinder, primitive_add, emptyScene, Scene.deselectAll,
    Scene.freshName, Scene.nameTaken, Scene.lookup, factoryRename, Scene.renameR,
    Scene.removeName, resize, Scene.mapSelected, Scene.mapActiveMesh, Scene.mapObj, openCaps,
    rigidbody_object_add, set_collision_shape, set_friction, defaultMesh, unselect,
    Obj.topRadius, Obj.bottomRadius, Obj.height]
  simp [h, Ne.symm h, unselect, Obj.topRadius, Obj.bottomRadius, Obj.height]
  norm_num

/-- Witness for C1 at the spec's own scenario: `makeSupport("S0", (0,0,0))`. -/
theorem C1_support_shape_w :
    ("S0" : String) ≠ "Cylinder" ∧
    ((create_support emptyScene "S0" ⟨0, 0, 0⟩).2 = some "S0" ∧
    ((create_support emptyScene "S0" ⟨0, 0, 0⟩).1.lookup "S0").map Obj.topRadius = some (1/2) ∧
    ((create_support emptyScene "S0" ⟨0, 0, 0⟩).1.lookup "S0").map Obj.bottomRadius = some (1/2) ∧
    ((create_support emptyScene "S0" ⟨0, 0, 0⟩).1.lookup "S0").map Obj.height = some (3/2) ∧
    ((create_support emptyScene "S0" ⟨0, 0, 0⟩).1.lookup "S0").map (fun o => o.mesh.topOpen) =
      some true ∧
    ((create_support emptyScene "S0" ⟨0, 0, 0⟩).1.lookup "S0").map (fun o => o.mesh.bottomOpen) =
      some true ∧
    ((create_support emptyScene "S0" ⟨0, 0, 0⟩).1.lookup "S0").map (fun o => o.mesh.capInset) =
      some (1/8) ∧
    ((create_support emptyScene "S0" ⟨0, 0, 0⟩).1.lookup "S0").map (fun o => o.mesh.kind) =
      some MeshKind.cylinder ∧
    ((create_support emptyScene "S0" ⟨0, 0, 0⟩).1.lookup "S0").map (fun o => o.scale) =
      some ⟨1/2, 1/2, 3/4⟩ ∧
    ((create_support emptyScene "S0" ⟨0, 0, 0⟩).1.lookup "S0").map (fun o => o.location) =
      some (zMod ⟨0, 0, 0⟩) ∧
    ((create_support emptyScene "S0" ⟨0, 0, 0⟩).1.lookup "S0").map (fun o => o.rigid_body) =
      some (some ⟨RBType.PASSIVE, "MESH", 1/10⟩)) :=
  ⟨by decide, C1_support_shape "S0" ⟨0, 0, 0⟩ (by decide)⟩

/-- Counterexample to claim C2 as stated: after a CSG difference
(`bool_meshes` with DIFFERENCE, the operation `create_track` performs on
its end supports) completes, the secondary operand "B" is still live and
its name is not free; only the primary's mesh gained the operation. -/
theorem C2_secondary_cex :
    (bool_meshes wScene "A" "B" .DIFFERENCE).nameTaken "B" = true ∧
    (bool_meshes wScene "A" "B" .DIFFERENCE).objects.map (fun o => o.name) = ["A", "B"] ∧
    ((bool_meshes wScene "A" "B" .DIFFERENCE).lookup "A").map (fun o => o.mesh.csg) =
      some [⟨.DIFFERENCE, "B", ⟨0, 1, 0⟩, false, false⟩] :=
  ⟨rfl, rfl, rfl⟩

/-- Claim C2 (amended): a `unionize_meshes` union destroys its secondary
operand, freeing its name, and the primary survives; a bare
`bool_meshes` difference leaves the secondary operand alive (callers
destroy it separately, in `create_track` only after using it on both end
supports). -/
theorem C2_secondary_amended :
    (∀ (s : Scene) (n1 n2 : String), n1 ≠ n2 → s.nameTaken n1 = true →
      (unionize_meshes s n1 n2).1.nameTaken n2 = false ∧
      (unionize_meshes s n1 n2).1.nameTaken n1 = true) ∧
    (∀ (s : Scene) (n1 n2 : String) (op : BoolOp), n2 ≠ n1 →
      (bool_meshes s n1 n2 op).lookup n2 = s.lookup n2) := by
  constructor
  · intro s n1 n2 hne h1
    have hobjs : (unionize_meshes s n1 n2).1.objects =
        (((bool_meshes (selectByName s n1) n1 n2 .UNION).objects.filter
          (fun o => !(o.name == n2))).map unselect) :=
      cleanup_objects (bool_meshes (selectByName s n1) n1 n2 .UNION).objects n2
    constructor
    · show ((unionize_meshes s n1 n2).1.lookup n2).isSome = false
      unfold Scene.lookup
      rw [hobjs, cleanup_find_self]
      rfl
    · show ((unionize_meshes s n1 n2).1.lookup n1).isSome = true
      unfold Scene.lookup
      rw [hobjs, cleanup_find_ne _ _ _ hne]
      have h2 := nameTaken_bool_meshes (selectByName s n1) n1 n2 n1 .UNION
      rw [nameTaken_selectByName s n1 n1] at h2
      unfold Scene.nameTaken Scene.lookup at h2 h1
      rw [h2, h1]
  · intro s n1 n2 op h
    cases h2 : s.lookup n2 with
    | none =>
      rw [bool_meshes_none s n1 n2 op h2]
      exact h2
    | some o2 =>
      rw [bool_meshes_some s n1 n2 op o2 h2]
      have he : (Scene.lookup { objects := (s.mapObj n1 fun o =>
            { o with mesh := boolApply o.mesh op o2 }).objects, active := some n1 } n2) =
          (s.mapObj n1 fun o => { o with mesh := boolApply o.mesh op o2 }).lookup n2 := rfl
      rw [he, lookup_mapObj_ne s n1 n2 (fun o => { o with mesh := boolApply o.mesh op o2 })
        (fun o => rfl) h]
      exact h2

/-- Witness for the amended C2 on the concrete two-cylinder scene. -/
theorem C2_secondary_amended_w :
    (("A" : String) ≠ "B" ∧ wScene.nameTaken "A" = true ∧
      ((unionize_meshes wScene "A" "B").1.nameTaken "B" = false ∧
        (unionize_meshes wScene "A" "B").1.nameTaken "A" = true)) ∧
    (("B" : String) ≠ "A" ∧
      (bool_meshes wScene "A" "B" .DIFFERENCE).lookup "B" = wScene.lookup "B") :=
  ⟨⟨by decide, rfl, C2_secondary_amended.1 wScene "A" "B" (by decide) rfl⟩,
   ⟨by decide, C2_secondary_amended.2 wScene "A" "B" .DIFFERENCE (by decide)⟩⟩

/-- Claim C3: for track length 2.45 (the hard-coded `track_length`),
`create_track` creates its two end supports at Y-offsets exactly -2 and
+2 from the input location (both opened tubes), merges both into the
single surviving track Solid, and their names are freed. -/
theorem C3_track_end_supports (loc : Vec3) :
    (create_track emptyScene "T_0" loc).2 = some "T_0" ∧
    (create_track emptyScene "T_0" loc).1.objects.map (fun o => o.name) = ["T_0"] ∧
    ((create_track emptyScene "T_0" loc).1.lookup "T_0").map (fun o => o.mesh.csg) =
      some [⟨.UNION, "T_0_e0", ⟨loc.x, loc.y - 2, loc.z * (3/2) + 3/4⟩, true, true⟩,
            ⟨.UNION, "T_0_e1", ⟨loc.x, loc.y + 2, loc.z * (3/2) + 3/4⟩, true, true⟩,
            ⟨.UNION, "T_0_p0", ⟨loc.x, loc.y - 2, loc.z * (3/2) + 3/4⟩, false, false⟩] ∧
    (create_track emptyScene "T_0" loc).1.lookup "T_0_e0" = none ∧
    (create_track emptyScene "T_0" loc).1.lookup "T_0_e1" = none := by
  rw [track_closed_form loc]
  simp [cfW, cfChannel, cfOpenMesh, cfStaticRB, cfT, cfE0, cfE1, cfE0Entry, cfE1Entry,
    cfP0Entry, Scene.lookup]

/-- Claim C4: every primitive factory (plane, circle, sphere/marble,
cylinder) places the created Solid at world Z = location.z * 1.5 + 0.75
with X and Y unchanged. -/
theorem C4_factory_z_rule (name : String) (loc : Vec3) (xs ys scl : ℚ) :
    (((create_plane emptyScene name loc xs ys).1.lookup
        (create_plane emptyScene name loc xs ys).2).map (fun o => o.location) =
      some ⟨loc.x, loc.y, loc.z * (3/2) + 3/4⟩) ∧
    (((create_circle emptyScene name loc xs ys).1.lookup
        (create_circle emptyScene name loc xs ys).2).map (fun o => o.location) =
      some ⟨loc.x, loc.y, loc.z * (3/2) + 3/4⟩) ∧
    (((create_marble emptyScene name loc scl).1.lookup
        (create_marble emptyScene name loc scl).2).map (fun o => o.location) =
      some ⟨loc.x, loc.y, loc.z * (3/2) + 3/4⟩) ∧
    (((create_cylinder emptyScene name loc).1.lookup
        (create_cylinder emptyScene name loc).2).map (fun o => o.location) =
      some ⟨loc.x, loc.y, loc.z * (3/2) + 3/4⟩) := by
  refine ⟨?_, ?_, ?_, ?_⟩
  · by_cases h : name = "Plane"
    · subst h
      simp [create_plane, primitive_add, emptyScene, Scene.deselectAll, Scene.freshName,
        Scene.nameTaken, Scene.lookup, factoryRename, Scene.renameR, Scene.removeName, resize,
        Scene.mapSelected, Scene.mapObj, defaultMesh, unselect, zMod]
    · simp [create_plane, primitive_add, emptyScene, Scene.deselectAll, Scene.freshName,
        Scene.nameTaken, Scene.lookup, factoryRename, Scene.renameR, Scene.removeName, resize,
        Scene.mapSelected, Scene.mapObj, defaultMesh, unselect, zMod, h, Ne.symm h]
  · by_cases h : name = "Circle"
    · subst h
      simp [create_circle, primitive_add, emptyScene, Scene.deselectAll, Scene.freshName,
        Scene.nameTaken, Scene.lookup, factoryRename, Scene.renameR, Scene.removeName, resize,
        Scene.mapSelected, Scene.mapObj, defaultMesh, unselect, zMod]
    · simp [create_circle, primitive_add, emptyScene, Scene.deselectAll, Scene.freshName,
        Scene.nameTaken, Scene.lookup, factoryRename, Scene.renameR, Scene.removeName, resize,
        Scene.mapSelected, Scene.mapObj, defaultMesh, unselect, zMod, h, Ne.symm h]
  · by_cases h : name = "Sphere"
    · subst h
      simp [create_marble, primitive_add, emptyScene, Scene.deselectAll, Scene.freshName,
        Scene.nameTaken, Scene.lookup, factoryRename, Scene.renameR, Scene.removeName, resize,
        Scene.mapSelected, Scene.mapObj, rigidbody_object_add, defaultMesh, unselect, zMod]
    · simp [create_marble, primitive_add, emptyScene, Scene.deselectAll, Scene.freshName,
        Scene.nameTaken, Scene.lookup, factoryRename, Scene.renameR, Scene.removeName, resize,
        Scene.mapSelected, Scene.mapObj, rigidbody_object_add, defaultMesh, unselect, zMod, h,
        Ne.symm h]
  · by_cases h : name = "Cylinder"
    · subst h
      simp [create_cylinder, primitive_add, emptyScene, Scene.deselectAll, Scene.freshName,
        Scene.nameTaken, Scene.lookup, factoryRename, Scene.renameR, Scene.removeName,
        Scene.mapObj, defaultMesh, unselect, zMod]
    · simp [create_cylinder, primitive_add, emptyScene, Scene.deselectAll, Scene.freshName,
        Scene.nameTaken, Scene.lookup, factoryRename, Scene.renameR, Scene.removeName,
        Scene.mapObj, defaultMesh, unselect, zMod, h, Ne.symm h]

/-- Claim C5: for every (non-reserved) name and location,
`create_start_funnel` returns a Solid whose top-ring radius is 1.5 times
the top-ring radius of the base support built by `create_support` with
the same arguments, while the bottom radius is unchanged. -/
theorem C5_funnel_flare (name : String) (loc : Vec3) (h : name ≠ "Cylinder") :
    (create_start_funnel emptyScene name loc).2 = some name ∧
    ((create_start_funnel emptyScene name loc).1.lookup name).map Obj.topRadius =
      ((create_support emptyScene name loc).1.lookup name).map (fun o => (3/2) * o.topRadius) ∧
    ((create_start_funnel emptyScene name loc).1.lookup name).map Obj.bottomRadius =
      ((create_support emptyScene name loc).1.lookup name).map Obj.bottomRadius := by
  simp only [create_start_funnel, create_support, create_cylinder, primitive_add, emptyScene,
    Scene.deselectAll, Scene.freshName, Scene.nameTaken, Scene.lookup, factoryRename,
    Scene.renameR, Scene.removeName, resize, Scene.mapSelected, Scene.mapActiveMesh,
    Scene.mapObj, openCaps, rigidbody_object_add, set_collision_shape, set_friction,
    defaultMesh, unselect, editResizeFaces]
  simp [h, Ne.symm h, unselect, Obj.topRadius, Obj.bottomRadius]

/-- Witness for C5 at name "F0" and the location used by the script. -/
theorem C5_funnel_flare_w :
    ("F0" : String) ≠ "Cylinder" ∧
    ((create_start_funnel emptyScene "F0" ⟨0, 0, 2⟩).2 = some "F0" ∧
    ((create_start_funnel emptyScene "F0" ⟨0, 0, 2⟩).1.lookup "F0").map Obj.topRadius =
      ((create_support emptyScene "F0" ⟨0, 0, 2⟩).1.lookup "F0").map
        (fun o => (3/2) * o.topRadius) ∧
    ((create_start_funnel emptyScene "F0" ⟨0, 0, 2⟩).1.lookup "F0").map Obj.bottomRadius =
      ((create_support emptyScene "F0" ⟨0, 0, 2⟩).1.lookup "F0").map Obj.bottomRadius) :=
  ⟨by decide, C5_funnel_flare "F0" ⟨0, 0, 2⟩ (by decide)⟩

/-- Counterexample to claim C6 as stated: creating a second cylinder
under the already-live name "A" does not fail with NameCollision; both
Solids are live afterwards, the new one under the host-suffixed name
"A.001". -/
theorem C6_collision_cex :
    ((create_cylinder ((create_cylinder emptyScene "A" ⟨0, 0, 0⟩).1) "A" ⟨0, 0, 0⟩).1.objects.map
      (fun o => o.name) = ["A", "A.001"]) ∧
    ((create_cylinder ((create_cylinder emptyScene "A" ⟨0, 0, 0⟩).1) "A" ⟨0, 0, 0⟩).2 =
      "A.001") := by
  constructor <;> rfl

/-- Claim C6 (amended): the factories perform no name-collision check;
a creation under a live name succeeds, with the host deduplicating the
name by a ".001" suffix, and both Solids stay live. -/
theorem C6_collision_amended (l1 l2 : Vec3) :
    ((create_cylinder ((create_cylinder emptyScene "A" l1).1) "A" l2).2 = "A.001") ∧
    ((create_cylinder ((create_cylinder emptyScene "A" l1).1) "A" l2).1.nameTaken "A" = true) ∧
    ((create_cylinder ((create_cylinder emptyScene "A" l1).1) "A" l2).1.nameTaken "A.001" =
      true) := by
  refine ⟨?_, ?_, ?_⟩ <;> rfl

/-- Counterexample to claim C7 as stated: on a cylinder mesh whose
tessellation lacks the expected cap faces 30 and 33, the cap-opening
step of `create_support` (the code the claim cites) does not fail with
any TopologyMismatch error; it completes silently, returning the mesh
unchanged with both caps still closed. -/
theorem C7_topology_cex :
    openCaps badCylMesh = badCylMesh ∧
    badCylMesh.topOpen = false ∧ badCylMesh.bottomOpen = false := ⟨rfl, rfl, rfl⟩

/-- Claim C7 (amended): `create_support` performs no topology check:
when the assumed cap faces 30 and 33 are absent the cap-opening step
leaves the mesh untouched, and for every non-reserved name the builder
still returns the created Solid; no TopologyMismatch failure exists. -/
theorem C7_topology_amended :
    (∀ m : Mesh, ¬ 30 < m.faceCount → ¬ 33 < m.faceCount → openCaps m = m) ∧
    (∀ (s : Scene) (name : String) (loc : Vec3), name ≠ "Cylinder" →
      (create_support s name loc).2 = some (create_cylinder s name loc).2) := by
  constructor
  · intro m h30 h33
    simp [openCaps, h30, h33]
  · intro s name loc h
    simp [create_support, h, Ne.symm h]

/-- Witness for the amended C7: the 18-face mesh and a concrete build. -/
theorem C7_topology_amended_w :
    (¬ 30 < badCylMesh.faceCount ∧ openCaps badCylMesh = badCylMesh) ∧
    (("S0" : String) ≠ "Cylinder" ∧
      (create_support emptyScene "S0" ⟨0, 0, 0⟩).2 =
        some (create_cylinder emptyScene "S0" ⟨0, 0, 0⟩).2) :=
  ⟨⟨by decide, C7_topology_amended.1 badCylMesh (by decide) (by decide)⟩,
   ⟨by decide, C7_topology_amended.2 emptyScene "S0" ⟨0, 0, 0⟩ (by decide)⟩⟩

/-- Counterexample to claim C8 as stated: the primitive factory
`create_cylinder`, given its own internal default name "Cylinder", does
not fail with ReservedName; it creates and returns a live Solid under
that name. -/
theorem C8_reserved_cex :
    (create_cylinder emptyScene "Cylinder" ⟨0, 0, 0⟩).1.objects.map (fun o => o.name) =
      ["Cylinder"] ∧
    (create_cylinder emptyScene "Cylinder" ⟨0, 0, 0⟩).2 = "Cylinder" := ⟨rfl, rfl⟩

/-- Claim C8 (amended): only the support builder rejects its internal
default name: `create_support` with name "Cylinder" prints and returns
the 0 sentinel, leaving the scene untouched and creating nothing, while
the primitive factories accept their own default names and simply create
the Solid under that name. -/
theorem C8_reserved_amended :
    (∀ (s : Scene) (loc : Vec3), create_support s "Cylinder" loc = (s, none)) ∧
    (∀ loc : Vec3,
      (create_cylinder emptyScene "Cylinder" loc).1.objects.map (fun o => o.name) =
        ["Cylinder"] ∧
      (create_cylinder emptyScene "Cylinder" loc).2 = "Cylinder") := by
  constructor
  · intro s loc
    rfl
  · intro loc
    constructor <;> rfl

/-- Claim C9: a boolean operation `bool_meshes` modifies only the
primary operand's mesh: every other object, in particular the secondary
operand, is preserved exactly, which is why `create_track` can subtract
the same cutter from both end supports before deleting it. -/
theorem C9_difference_frame (s : Scene) (n1 n2 m : String) (op : BoolOp) (o2 : Obj)
    (h2 : s.lookup n2 = some o2) (hm : m ≠ n1) :
    (bool_meshes s n1 n2 op).lookup m = s.lookup m ∧
    (bool_meshes s n1 n2 op).lookup n1 =
      (s.lookup n1).map (fun o => { o with mesh := boolApply o.mesh op o2 }) := by
  unfold bool_meshes
  rw [h2]
  exact ⟨lookup_mapObj_ne s n1 m _ (fun o => rfl) hm,
    lookup_mapObj_self s n1 _ (fun o => rfl)⟩

/-- Witness for C9 on the concrete two-cylinder scene. -/
theorem C9_difference_frame_w :
    wScene.lookup "B" = some wObjB ∧ ("B" : String) ≠ "A" ∧
    ((bool_meshes wScene "A" "B" .DIFFERENCE).lookup "B" = wScene.lookup "B" ∧
      (bool_meshes wScene "A" "B" .DIFFERENCE).lookup "A" =
        (wScene.lookup "A").map
          (fun o => { o with mesh := boolApply o.mesh .DIFFERENCE wObjB })) :=
  ⟨rfl, by decide, C9_difference_frame wScene "A" "B" "B" .DIFFERENCE wObjB rfl (by decide)⟩

/-- Claim C10: for every name matching no object, `get_object` prints a
message and returns the integer 0 sentinel instead of an object, and
`select_object` on such a name raises an exception (attribute access on
the 0 sentinel) rather than returning a typed failure value. -/
theorem C10_missing_name (s : Scene) (n : String) (h : s.lookup n = none) :
    get_object s n = PyVal.intZero ∧
    select_object s n = Except.error PyError.attributeError := by
  unfold select_object get_object
  rw [h]
  exact ⟨rfl, rfl⟩

/-- Witness for C10 on the empty scene. -/
theorem C10_missing_name_w :
    emptyScene.lookup "X" = none ∧
    get_object emptyScene "X" = PyVal.intZero ∧
    select_object emptyScene "X" = Except.error PyError.attributeError :=
  ⟨rfl, C10_missing_name emptyScene "X" rfl⟩

end MarbleMaze
